import Mathlib

/-!
# LightGunXR : shallow embedding and verification

A shallow embedding of the core of `lightgunxr.c` (the revision with the
pitch/yaw projection): the aim-to-screen projection engine
(`pose_to_pointer`), the calibration state machine and the per-tick output
mapping of `main`'s action-polling loop.  Float arithmetic is idealised as
real arithmetic; the partial operations (division by zero, square root of a
negative) are made explicit with `Option`, a failed computation making the
tick discard its projection exactly as the out-of-range check does in C.
-/

open Real

noncomputable section

namespace LightGunXR

/-- Orientation quaternion of an `XrPosef` (fields x, y, z, w). -/
structure XrQuaternionf where
  qx : ℝ
  qy : ℝ
  qz : ℝ
  qw : ℝ

/-- Position vector of an `XrPosef`. -/
structure XrVector3f where
  px : ℝ
  py : ℝ
  pz : ℝ

/-- A device pose: orientation plus position, as sampled by `xrLocateSpace`. -/
structure XrPosef where
  orientation : XrQuaternionf
  position : XrVector3f

/-- C's `atan2f(y, x)`, idealised over the reals (the usual piecewise
definition by quadrant). -/
def atan2 (y x : ℝ) : ℝ :=
  if 0 < x then Real.arctan (y / x)
  else if x < 0 ∧ 0 ≤ y then Real.arctan (y / x) + π
  else if x < 0 then Real.arctan (y / x) - π
  else if 0 < y then π / 2
  else if y < 0 then -(π / 2)
  else 0

/-- `poseAngleX` of `pose_to_pointer`: pitch extracted from the quaternion,
`asinf(-2 * (x*z - w*y))`. -/
def poseAngleX (p : XrPosef) : ℝ :=
  Real.arcsin (-2 * (p.orientation.qx * p.orientation.qz -
    p.orientation.qw * p.orientation.qy))

/-- `poseAngleY` of `pose_to_pointer` before the flip: yaw extracted from the
quaternion with `atan2f`. -/
def poseAngleYRaw (p : XrPosef) : ℝ :=
  atan2
    (2 * (p.orientation.qy * p.orientation.qz +
      p.orientation.qw * p.orientation.qx))
    (p.orientation.qw * p.orientation.qw - p.orientation.qx * p.orientation.qx -
      p.orientation.qy * p.orientation.qy + p.orientation.qz * p.orientation.qz)

/-- `poseAngleY` after the flip: flibit's setup starts pitch at plus or minus 180, so
the C code subtracts pi when positive and adds pi otherwise. -/
def poseAngleY (p : XrPosef) : ℝ :=
  if 0 < poseAngleYRaw p then poseAngleYRaw p - π else poseAngleYRaw p + π

/-- `(poseAngle > 0) - (poseAngle < 0)`: the sign factor reintroducing the
plus-or-minus attribute on an offset. -/
def csign (a : ℝ) : ℝ :=
  (if 0 < a then (1 : ℝ) else 0) - (if a < 0 then (1 : ℝ) else 0)

/-- One axis of the right-triangle solve:
`sqrtf(powf(normalDistance / cosf(angle), 2) - normalDistance^2)` with the
sign of the angle reattached.  Division by a zero cosine and a negative
radicand are the partial (failing) operations; in C they produce a non-finite
float that the caller's range check discards, so they are modelled as `none`. -/
def offAxis (n angle : ℝ) : Option ℝ :=
  if Real.cos angle = 0 then none
  else if (n / Real.cos angle) ^ 2 - n ^ 2 < 0 then none
  else some (Real.sqrt ((n / Real.cos angle) ^ 2 - n ^ 2) * csign angle)

/-- The candidate normalized coordinates of `pose_to_pointer`, before the
range check: `resultX = ((pos.x - offX) - x0) / (x1 - x0)` and
`resultY = ((pos.y + offY) - y0) / (y1 - y0)`.  A zero-extent rectangle makes
the final division partial as well. -/
def candidate (p : XrPosef) (x0 x1 y0 y1 depth : ℝ) : Option (ℝ × ℝ) := do
  let n := |p.position.pz - depth|
  let ox ← offAxis n (poseAngleX p)
  let oy ← offAxis n (poseAngleY p)
  if x1 - x0 = 0 then none
  else if y1 - y0 = 0 then none
  else pure (((p.position.px - ox) - x0) / (x1 - x0),
             ((p.position.py + oy) - y0) / (y1 - y0))

/-- The tail of `pose_to_pointer` acting on a computed candidate: the
out-of-range discard and the compare-and-store against `mouseX, mouseY`. -/
def emitStep (c : Option (ℝ × ℝ)) (m : ℝ × ℝ) : Bool × (ℝ × ℝ) :=
  match c with
  | none => (false, m)
  | some (rx, ry) =>
    if rx < 0 ∨ 1 < rx ∨ ry < 0 ∨ 1 < ry then (false, m)
    else if rx ≠ m.1 ∨ ry ≠ m.2 then (true, (rx, ry))
    else (false, m)

/-- `pose_to_pointer`: the Boolean is the C return value, the pair is the
final contents of `*mouseX, *mouseY` (unchanged when the return is 0,
mirroring the out-parameters). -/
def pose_to_pointer (p : XrPosef) (x0 x1 y0 y1 depth : ℝ) (m : ℝ × ℝ) :
    Bool × (ℝ × ℝ) :=
  emitStep (candidate p x0 x1 y0 y1 depth) m

/-- `(int)` truncation of a float toward zero, as the C cast does when
scaling `mouseX * SCREEN_WIDTH`. -/
def c_int_of (x : ℝ) : ℤ :=
  if 0 ≤ x then ⌊x⌋ else -⌊-x⌋

/-- `SCREEN_WIDTH`. -/
def SCREEN_WIDTH : ℝ := 1920

/-- `SCREEN_HEIGHT`. -/
def SCREEN_HEIGHT : ℝ := 1080

/-- The calibration phases of `main`'s `state` enum. -/
inductive Phase where
  | recordingTopLeft
  | recordingBottomRight
  | playing
deriving DecidableEq

/-- An `XrActionStateBoolean`: the current value and the changed-since-last-
sync flag of a boolean action. -/
structure XrActionStateBoolean where
  currentState : Bool
  changedSinceLastSync : Bool

/-- The three boolean actions polled each tick. -/
structure Buttons where
  fire : XrActionStateBoolean
  pedal : XrActionStateBoolean
  pause : XrActionStateBoolean

/-- The key codes the output mapper writes (`BTN_LEFT`, `KEY_Z`, `KEY_C`). -/
inductive Key where
  | btnLeft
  | keyZ
  | keyC
deriving DecidableEq

/-- The absolute axes the output mapper writes (`ABS_X`, `ABS_Y`). -/
inductive Axis where
  | absX
  | absY
deriving DecidableEq

/-- One `input_event` written to the uinput sink. -/
inductive Event where
  | key (code : Key) (value : Bool)
  | abs (axis : Axis) (value : ℤ)
  | syn
deriving DecidableEq

/-- The mutable locals of `main`'s polling loop that the core touches:
calibration phase, the recorded rectangle `x0 x1 y0 y1` with plane depth `z`,
the `run` and `sync` flags and the pointer state `mouseX, mouseY`. -/
structure LoopState where
  phase : Phase
  x0 : ℝ
  x1 : ℝ
  y0 : ℝ
  y1 : ℝ
  z : ℝ
  run : Bool
  sync : Bool
  mouse : ℝ × ℝ

/-- The state of the loop right after `xrBeginSession`: recording the first
corner, `run = 1`, `sync = 0`, `mouseX = mouseY = 0`.  The rectangle locals
are declared but not initialised in C, so they are parameters here. -/
def initState (gx0 gx1 gy0 gy1 gz : ℝ) : LoopState :=
  { phase := .recordingTopLeft
    x0 := gx0, x1 := gx1, y0 := gy0, y1 := gy1, z := gz
    run := true, sync := false, mouse := (0, 0) }

/-- One `XR_SUCCESS` iteration of the polling loop, from the freshly polled
action states and pose: the calibration state machine when recording, the quit
check, the button mapper, the pointer update and the `EV_SYN` flush when
playing.  Returns the updated locals and the `input_event`s written this
tick, in write order. -/
def tick (b : Buttons) (p : XrPosef) (s : LoopState) : LoopState × List Event :=
  match s.phase with
  | .recordingTopLeft =>
    if b.fire.currentState && b.fire.changedSinceLastSync then
      ({ s with x0 := p.position.px, y0 := p.position.py, z := p.position.pz,
                phase := .recordingBottomRight }, [])
    else (s, [])
  | .recordingBottomRight =>
    if b.fire.currentState && b.fire.changedSinceLastSync then
      ({ s with x1 := p.position.px, y1 := p.position.py,
                z := if s.z < p.position.pz then s.z else p.position.pz,
                phase := .playing }, [])
    else (s, [])
  | .playing =>
    let run' := if b.fire.currentState && b.pause.currentState then false else s.run
    let fireEvs := if b.fire.changedSinceLastSync then
      [Event.key .btnLeft b.fire.currentState] else []
    let pedalEvs := if b.pedal.changedSinceLastSync then
      [Event.key .keyZ b.pedal.currentState] else []
    let pauseEvs := if b.pause.changedSinceLastSync then
      [Event.key .keyC b.pause.currentState] else []
    let ptr := pose_to_pointer p s.x0 s.x1 s.y0 s.y1 s.z s.mouse
    let absEvs := if ptr.1 then
      [Event.abs .absX (c_int_of (ptr.2.1 * SCREEN_WIDTH)),
       Event.abs .absY (c_int_of (ptr.2.2 * SCREEN_HEIGHT))] else []
    let doSync := s.sync || b.fire.changedSinceLastSync ||
      b.pedal.changedSinceLastSync || b.pause.changedSinceLastSync || ptr.1
    let synEvs := if doSync then [Event.syn] else []
    ({ s with run := run', sync := false, mouse := ptr.2 },
     fireEvs ++ pedalEvs ++ pauseEvs ++ absEvs ++ synEvs)

/-- Is an event an absolute-position (`EV_ABS`) event? -/
def isAbs : Event → Bool
  | .abs _ _ => true
  | _ => false

/-- Is an event the synchronization barrier (`EV_SYN`)? -/
def isSyn : Event → Bool
  | .syn => true
  | _ => false

/-- Rank of a calibration phase along the forward lifecycle. -/
def phaseRank : Phase → ℕ
  | .recordingTopLeft => 0
  | .recordingBottomRight => 1
  | .playing => 2

/-- The identity orientation. -/
def idQuat : XrQuaternionf := ⟨0, 0, 0, 1⟩

/-! ## Evaluation helpers -/

/-- An angle of zero yields a zero offset. -/
lemma offAxis_zero (n : ℝ) : offAxis n 0 = some 0 := by
  simp [offAxis, csign]

/-- An angle of pi (aiming straight ahead after the flip) yields a zero
offset. -/
lemma offAxis_pi (n : ℝ) : offAxis n π = some 0 := by
  have h : (n / (-1 : ℝ)) ^ 2 - n ^ 2 = 0 := by ring
  simp [offAxis, Real.cos_pi, csign, Real.pi_pos, Real.pi_pos.not_lt, h]

/-- Pitch of an identity-orientation pose is zero. -/
lemma poseAngleX_id (pos : XrVector3f) : poseAngleX ⟨idQuat, pos⟩ = 0 := by
  simp [poseAngleX, idQuat]

/-- Yaw of an identity-orientation pose is pi after the flip. -/
lemma poseAngleY_id (pos : XrVector3f) : poseAngleY ⟨idQuat, pos⟩ = π := by
  simp [poseAngleY, poseAngleYRaw, atan2, idQuat, Real.arctan_zero]

/-- For an identity-orientation pose both offsets vanish and the candidate is
the normalized position itself. -/
lemma candidate_id (pos : XrVector3f) (x0 x1 y0 y1 depth : ℝ)
    (hx : x1 - x0 ≠ 0) (hy : y1 - y0 ≠ 0) :
    candidate ⟨idQuat, pos⟩ x0 x1 y0 y1 depth =
      some ((pos.px - x0) / (x1 - x0), (pos.py - y0) / (y1 - y0)) := by
  simp [candidate, poseAngleX_id, poseAngleY_id, offAxis_zero, offAxis_pi, hx, hy]

/-- `emitStep` on a failed candidate returns 0 and keeps the state. -/
lemma emitStep_none (m : ℝ × ℝ) : emitStep none m = (false, m) := rfl

/-- `emitStep` on a computed candidate is the range check followed by the
compare-and-store. -/
lemma emitStep_some (rx ry : ℝ) (m : ℝ × ℝ) :
    emitStep (some (rx, ry)) m =
      if rx < 0 ∨ 1 < rx ∨ ry < 0 ∨ 1 < ry then (false, m)
      else if rx ≠ m.1 ∨ ry ≠ m.2 then (true, (rx, ry))
      else (false, m) := rfl

/-- Whenever `emitStep` reports an update, the stored pair passed the range
check: both coordinates lie in `[0, 1]`. -/
lemma emitStep_true_range (c : Option (ℝ × ℝ)) (m m' : ℝ × ℝ)
    (h : emitStep c m = (true, m')) :
    0 ≤ m'.1 ∧ m'.1 ≤ 1 ∧ 0 ≤ m'.2 ∧ m'.2 ≤ 1 := by
  match c with
  | none => simp [emitStep] at h
  | some (rx, ry) =>
    rw [emitStep_some] at h
    split_ifs at h with h1 h2
    · simp at h
    · push_neg at h1
      injection h with hb hm
      subst hm
      exact h1
    · simp at h

/-- Whenever `emitStep` reports an update, the new state is the candidate and
it differed from the old state. -/
lemma emitStep_true_iff (c : Option (ℝ × ℝ)) (m m' : ℝ × ℝ)
    (h : emitStep c m = (true, m')) :
    c = some m' ∧ m' ≠ m := by
  match c with
  | none => simp [emitStep] at h
  | some (rx, ry) =>
    rw [emitStep_some] at h
    split_ifs at h with h1 h2
    · simp at h
    · injection h with hb hm
      subst hm
      refine ⟨rfl, ?_⟩
      intro hcontra
      rcases h2 with h2 | h2 <;> exact h2 (by rw [← hcontra])
    · simp at h

/-- A zero cosine makes the offset computation fail. -/
lemma offAxis_none_of_cos {n a : ℝ} (h : Real.cos a = 0) : offAxis n a = none := by
  simp [offAxis, h]

/-- A negative radicand makes the offset computation fail. -/
lemma offAxis_none_of_rad {n a : ℝ} (h : (n / Real.cos a) ^ 2 - n ^ 2 < 0) :
    offAxis n a = none := by
  rcases eq_or_ne (Real.cos a) 0 with hc | hc
  · exact offAxis_none_of_cos hc
  · simp [offAxis, hc, h]

/-- A failed pitch offset fails the whole candidate computation. -/
lemma candidate_none_left {p : XrPosef} {x0 x1 y0 y1 depth : ℝ}
    (h : offAxis |p.position.pz - depth| (poseAngleX p) = none) :
    candidate p x0 x1 y0 y1 depth = none := by
  simp [candidate, h]

/-- A failed yaw offset fails the whole candidate computation. -/
lemma candidate_none_right {p : XrPosef} {x0 x1 y0 y1 depth : ℝ}
    (h : offAxis |p.position.pz - depth| (poseAngleY p) = none) :
    candidate p x0 x1 y0 y1 depth = none := by
  cases hx : offAxis |p.position.pz - depth| (poseAngleX p) <;>
    simp [candidate, hx, h]

/-- Evaluation of the C `(int)` cast on a bracketed nonnegative value. -/
lemma c_int_of_eq (x : ℝ) (k : ℤ) (h0 : 0 ≤ x) (h1 : (k : ℝ) ≤ x)
    (h2 : x < k + 1) : c_int_of x = k := by
  rw [c_int_of, if_pos h0]
  exact Int.floor_eq_iff.mpr ⟨h1, by exact_mod_cast h2⟩

/-- A playing tick with no button changes and a pointer update writes exactly
the two absolute events followed by the barrier. -/
lemma tick_playing_events_update (b : Buttons) (p : XrPosef) (s : LoopState)
    (hphase : s.phase = .playing) (hf : b.fire.changedSinceLastSync = false)
    (hpd : b.pedal.changedSinceLastSync = false)
    (hps : b.pause.changedSinceLastSync = false) (u v : ℝ)
    (hupd : pose_to_pointer p s.x0 s.x1 s.y0 s.y1 s.z s.mouse = (true, (u, v))) :
    (tick b p s).2 = [Event.abs .absX (c_int_of (u * SCREEN_WIDTH)),
      Event.abs .absY (c_int_of (v * SCREEN_HEIGHT)), Event.syn] := by
  simp [tick, hphase, hf, hpd, hps, hupd]

/-! ## The claims -/

/-- Claim C1: for every pose and every completed calibration, the projection
step never emits a coordinate outside the unit square: whenever the computed
candidate `(u, v)` has `u < 0` or `u > 1` or `v < 0` or `v > 1`,
`pose_to_pointer` returns 0 and leaves `mouseX`/`mouseY` unchanged, and every
pair it ever writes to `mouseX`/`mouseY` lies in `[0,1] × [0,1]`. -/
theorem C1_projection_range (p : XrPosef) (x0 x1 y0 y1 depth : ℝ) (m : ℝ × ℝ) :
    (∀ rx ry, candidate p x0 x1 y0 y1 depth = some (rx, ry) →
      (rx < 0 ∨ 1 < rx ∨ ry < 0 ∨ 1 < ry) →
      pose_to_pointer p x0 x1 y0 y1 depth m = (false, m)) ∧
    (∀ m', pose_to_pointer p x0 x1 y0 y1 depth m = (true, m') →
      0 ≤ m'.1 ∧ m'.1 ≤ 1 ∧ 0 ≤ m'.2 ∧ m'.2 ≤ 1) := by
  constructor
  · intro rx ry hc hout
    rw [pose_to_pointer, hc, emitStep_some, if_pos hout]
  · intro m' h
    exact emitStep_true_range _ _ _ h

/-- Witness for C1: an identity-orientation pose at `x = 10` over the unit
calibration rectangle computes the out-of-range candidate `(10, 0)`, and the
projection returns 0 leaving the pointer state unchanged. -/
theorem C1_witness :
    (candidate ⟨idQuat, ⟨10, 0, 0⟩⟩ 0 1 0 1 5 = some (10, 0)) ∧
    pose_to_pointer ⟨idQuat, ⟨10, 0, 0⟩⟩ 0 1 0 1 5 (1/4, 1/3) =
      (false, (1/4, 1/3)) := by
  have hc : candidate ⟨idQuat, ⟨10, 0, 0⟩⟩ 0 1 0 1 5 = some (10, 0) := by
    rw [candidate_id _ _ _ _ _ _ (by norm_num) (by norm_num)]
    norm_num
  exact ⟨hc, (C1_projection_range _ 0 1 0 1 5 _).1 10 0 hc (by norm_num)⟩

/-- Claim C2: starting in the first-corner phase, a fire pressed-edge at pose
`P1` records `P1`'s `(x, y)` as `(x0, y0)` and `P1.z` as the depth candidate
and advances to the second-corner phase; a subsequent fire pressed-edge at
pose `P2` records `P2`'s `(x, y)` as `(x1, y1)`, sets
`depth = min P1.z P2.z`, and advances to the playing phase; a fire hold
(current state true but unchanged) triggers no transition in either
recording phase. -/
theorem C2_calibration_sequencing (b1 b2 bh : Buttons) (P1 P2 Ph : XrPosef)
    (s : LoopState) (hs : s.phase = .recordingTopLeft)
    (h1 : b1.fire.currentState = true) (h1e : b1.fire.changedSinceLastSync = true)
    (h2 : b2.fire.currentState = true) (h2e : b2.fire.changedSinceLastSync = true)
    (hh : bh.fire.currentState = true) (hhe : bh.fire.changedSinceLastSync = false) :
    ((tick b1 P1 s).1.phase = .recordingBottomRight ∧
      (tick b1 P1 s).1.x0 = P1.position.px ∧
      (tick b1 P1 s).1.y0 = P1.position.py ∧
      (tick b1 P1 s).1.z = P1.position.pz) ∧
    ((tick b2 P2 (tick b1 P1 s).1).1.phase = .playing ∧
      (tick b2 P2 (tick b1 P1 s).1).1.x1 = P2.position.px ∧
      (tick b2 P2 (tick b1 P1 s).1).1.y1 = P2.position.py ∧
      (tick b2 P2 (tick b1 P1 s).1).1.z = min P1.position.pz P2.position.pz) ∧
    (tick bh Ph s).1 = s ∧
    (tick bh Ph (tick b1 P1 s).1).1 = (tick b1 P1 s).1 := by
  have hs1 : (tick b1 P1 s).1 =
      { s with x0 := P1.position.px, y0 := P1.position.py, z := P1.position.pz,
               phase := .recordingBottomRight } := by
    simp [tick, hs, h1, h1e]
  have hmin : (if P1.position.pz < P2.position.pz then P1.position.pz
      else P2.position.pz) = min P1.position.pz P2.position.pz := by
    rcases lt_or_le P1.position.pz P2.position.pz with hlt | hle
    · simp [hlt, min_eq_left hlt.le]
    · simp [not_lt.2 hle, min_eq_right hle]
  refine ⟨?_, ?_, ?_, ?_⟩
  · rw [hs1]
    exact ⟨rfl, rfl, rfl, rfl⟩
  · rw [hs1]
    refine ⟨by simp [tick, h2, h2e], by simp [tick, h2, h2e],
      by simp [tick, h2, h2e], ?_⟩
    simp [tick, h2, h2e, hmin]
  · simp [tick, hs, hhe]
  · rw [hs1]
    simp [tick, hhe]

/-- Witness for C2: pressing fire at `(1, 2, 5)` and then at `(6, 7, 3)`
reaches the second-corner phase and then a depth of `min 5 3`. -/
theorem C2_witness :
    ((tick ⟨⟨true, true⟩, ⟨false, false⟩, ⟨false, false⟩⟩ ⟨idQuat, ⟨1, 2, 5⟩⟩
        (initState 0 0 0 0 0)).1.phase = .recordingBottomRight) ∧
    ((tick ⟨⟨true, true⟩, ⟨false, false⟩, ⟨false, false⟩⟩ ⟨idQuat, ⟨6, 7, 3⟩⟩
        (tick ⟨⟨true, true⟩, ⟨false, false⟩, ⟨false, false⟩⟩ ⟨idQuat, ⟨1, 2, 5⟩⟩
          (initState 0 0 0 0 0)).1).1.z = min (5 : ℝ) 3) := by
  have h := C2_calibration_sequencing
    ⟨⟨true, true⟩, ⟨false, false⟩, ⟨false, false⟩⟩
    ⟨⟨true, true⟩, ⟨false, false⟩, ⟨false, false⟩⟩
    ⟨⟨true, false⟩, ⟨false, false⟩, ⟨false, false⟩⟩
    ⟨idQuat, ⟨1, 2, 5⟩⟩ ⟨idQuat, ⟨6, 7, 3⟩⟩ ⟨idQuat, ⟨0, 0, 0⟩⟩
    (initState 0 0 0 0 0) rfl rfl rfl rfl rfl rfl rfl
  exact ⟨h.1.1, h.2.1.2.2.2⟩

/-- Claim C3: for every pose whose pitch or yaw makes the cosine vanish (ray
parallel to or behind the plane) or makes the square-root radicand negative,
the projection for that tick is discarded: `pose_to_pointer` returns 0 and
the pointer state is retained unchanged. -/
theorem C3_parallel_discarded (p : XrPosef) (x0 x1 y0 y1 depth : ℝ) (m : ℝ × ℝ)
    (h : Real.cos (poseAngleX p) = 0 ∨ Real.cos (poseAngleY p) = 0 ∨
      (|p.position.pz - depth| / Real.cos (poseAngleX p)) ^ 2 -
        |p.position.pz - depth| ^ 2 < 0 ∨
      (|p.position.pz - depth| / Real.cos (poseAngleY p)) ^ 2 -
        |p.position.pz - depth| ^ 2 < 0) :
    pose_to_pointer p x0 x1 y0 y1 depth m = (false, m) := by
  have hc : candidate p x0 x1 y0 y1 depth = none := by
    rcases h with h | h | h | h
    · exact candidate_none_left (offAxis_none_of_cos h)
    · exact candidate_none_right (offAxis_none_of_cos h)
    · exact candidate_none_left (offAxis_none_of_rad h)
    · exact candidate_none_right (offAxis_none_of_rad h)
  rw [pose_to_pointer, hc, emitStep_none]

/-- Witness for C3: the orientation `(x, y, z, w) = (1, 0, -1/2, 0)` has a
pitch of ninety degrees, whose cosine is zero, so the tick is discarded. -/
theorem C3_witness :
    (Real.cos (poseAngleX ⟨⟨1, 0, -(1/2), 0⟩, ⟨2, 3, 4⟩⟩) = 0) ∧
    pose_to_pointer ⟨⟨1, 0, -(1/2), 0⟩, ⟨2, 3, 4⟩⟩ 0 1 0 1 5 (1/4, 1/3) =
      (false, (1/4, 1/3)) := by
  have hx : poseAngleX ⟨⟨1, 0, -(1/2), 0⟩, ⟨2, 3, 4⟩⟩ = π / 2 := by
    rw [poseAngleX]
    norm_num [Real.arcsin_one]
  have h : Real.cos (poseAngleX ⟨⟨1, 0, -(1/2), 0⟩, ⟨2, 3, 4⟩⟩) = 0 := by
    rw [hx, Real.cos_pi_div_two]
  exact ⟨h, C3_parallel_discarded _ 0 1 0 1 5 _ (Or.inl h)⟩

/-- Claim C4 (evaluated at the failing input): the code does NOT abort on a
degenerate calibration.  Two fire press-edges with the device at the same
position complete calibration with `x1 = x0` and `y1 = y0` and the machine
proceeds into the playing phase, silently; there is no fatal-error path. -/
theorem C4_degenerate_calibration_reachable :
    ((tick ⟨⟨true, true⟩, ⟨false, false⟩, ⟨false, false⟩⟩ ⟨idQuat, ⟨2, 3, 5⟩⟩
        ((tick ⟨⟨true, true⟩, ⟨false, false⟩, ⟨false, false⟩⟩ ⟨idQuat, ⟨2, 3, 5⟩⟩
          (initState 0 0 0 0 0)).1)).1.phase = .playing) ∧
    ((tick ⟨⟨true, true⟩, ⟨false, false⟩, ⟨false, false⟩⟩ ⟨idQuat, ⟨2, 3, 5⟩⟩
        ((tick ⟨⟨true, true⟩, ⟨false, false⟩, ⟨false, false⟩⟩ ⟨idQuat, ⟨2, 3, 5⟩⟩
          (initState 0 0 0 0 0)).1)).1.x1 =
      (tick ⟨⟨true, true⟩, ⟨false, false⟩, ⟨false, false⟩⟩ ⟨idQuat, ⟨2, 3, 5⟩⟩
        ((tick ⟨⟨true, true⟩, ⟨false, false⟩, ⟨false, false⟩⟩ ⟨idQuat, ⟨2, 3, 5⟩⟩
          (initState 0 0 0 0 0)).1)).1.x0) ∧
    ((tick ⟨⟨true, true⟩, ⟨false, false⟩, ⟨false, false⟩⟩ ⟨idQuat, ⟨2, 3, 5⟩⟩
        ((tick ⟨⟨true, true⟩, ⟨false, false⟩, ⟨false, false⟩⟩ ⟨idQuat, ⟨2, 3, 5⟩⟩
          (initState 0 0 0 0 0)).1)).1.y1 =
      (tick ⟨⟨true, true⟩, ⟨false, false⟩, ⟨false, false⟩⟩ ⟨idQuat, ⟨2, 3, 5⟩⟩
        ((tick ⟨⟨true, true⟩, ⟨false, false⟩, ⟨false, false⟩⟩ ⟨idQuat, ⟨2, 3, 5⟩⟩
          (initState 0 0 0 0 0)).1)).1.y0) := by
  refine ⟨?_, ?_, ?_⟩ <;> simp [tick, initState]

/-- Counterexample to C5 as stated: in the first-corner recording phase, a
tick with both fire and pause held leaves the run flag true — the quit check
is not performed in the recording phases. -/
theorem C5_counterexample :
    ((tick ⟨⟨true, false⟩, ⟨false, false⟩, ⟨true, false⟩⟩ ⟨idQuat, ⟨0, 0, 0⟩⟩
      (initState 0 0 0 0 0)).1).run = true := by
  simp [tick, initState]

/-- Claim C5 as amended: on every playing-phase tick in which the fire
button's current state and the pause button's current state are both true (a
level condition, independent of edge flags), the run flag is false by the end
of that tick. -/
theorem C5_quit_on_fire_pause (b : Buttons) (p : XrPosef) (s : LoopState)
    (hphase : s.phase = .playing)
    (hf : b.fire.currentState = true) (hp : b.pause.currentState = true) :
    ((tick b p s).1).run = false := by
  simp [tick, hphase, hf, hp]

/-- Witness for C5: a playing tick with fire and pause held (no edges) clears
the run flag. -/
theorem C5_witness :
    ((tick ⟨⟨true, false⟩, ⟨false, false⟩, ⟨true, false⟩⟩ ⟨idQuat, ⟨0, 0, 0⟩⟩
      { phase := .playing, x0 := 0, x1 := 1, y0 := 0, y1 := 1, z := 0,
        run := true, sync := false, mouse := (0, 0) }).1).run = false :=
  C5_quit_on_fire_pause _ _ _ rfl rfl rfl

/-- Claim C6: emission is idempotent in the pose.  After a first successful
update stores the candidate in the pointer state, feeding a pose that
computes the exact same candidate again produces no second emission:
`pose_to_pointer` returns 0 and the pointer state is unchanged, so two
identical consecutive poses yield exactly one emission. -/
theorem C6_idempotent (p p' : XrPosef) (x0 x1 y0 y1 depth : ℝ) (m m' : ℝ × ℝ)
    (h : pose_to_pointer p x0 x1 y0 y1 depth m = (true, m'))
    (hsame : candidate p' x0 x1 y0 y1 depth = candidate p x0 x1 y0 y1 depth) :
    pose_to_pointer p' x0 x1 y0 y1 depth m' = (false, m') := by
  obtain ⟨u, v⟩ := m'
  obtain ⟨hc, hne⟩ := emitStep_true_iff _ _ _ h
  obtain ⟨r1, r2, r3, r4⟩ := emitStep_true_range _ _ _ h
  rw [pose_to_pointer, hsame, hc, emitStep_some]
  rw [if_neg (by push_neg; exact ⟨r1, r2, r3, r4⟩)]
  simp

/-- Witness for C6: the centre-aiming pose updates the pointer state to
`(1/2, 1/2)` the first time, and feeding the identical pose again returns 0
with the state unchanged. -/
theorem C6_witness :
    (pose_to_pointer ⟨idQuat, ⟨1/2, 1/2, 0⟩⟩ 0 1 0 1 0 (0, 0) =
      (true, (1/2, 1/2))) ∧
    pose_to_pointer ⟨idQuat, ⟨1/2, 1/2, 0⟩⟩ 0 1 0 1 0 (1/2, 1/2) =
      (false, (1/2, 1/2)) := by
  have h1 : pose_to_pointer ⟨idQuat, ⟨1/2, 1/2, 0⟩⟩ 0 1 0 1 0 (0, 0) =
      (true, (1/2, 1/2)) := by
    rw [pose_to_pointer, candidate_id _ _ _ _ _ _ (by norm_num) (by norm_num)]
    norm_num [emitStep_some]
  exact ⟨h1, C6_idempotent _ _ _ _ _ _ _ _ _ h1 rfl⟩

/-- Counterexample to C7 as stated: the sink scaling is the C `(int)` cast
(truncation toward zero), not rounding.  A playing tick whose pointer updates
to `(1/1000, 1/2)` writes the absolute X position 1, while rounding
`(1/1000) * 1920 = 1.92` gives 2. -/
theorem C7_counterexample :
    (tick ⟨⟨false, false⟩, ⟨false, false⟩, ⟨false, false⟩⟩
        ⟨idQuat, ⟨1/1000, 1/2, 0⟩⟩
        { phase := .playing, x0 := 0, x1 := 1, y0 := 0, y1 := 1, z := 0,
          run := true, sync := false, mouse := (0, 0) }).2 =
      [Event.abs .absX 1, Event.abs .absY 540, Event.syn] ∧
    round ((1/1000 : ℝ) * 1920) = (2 : ℤ) ∧ (1 : ℤ) ≠ 2 := by
  have hptr : pose_to_pointer ⟨idQuat, ⟨1/1000, 1/2, 0⟩⟩ 0 1 0 1 0 (0, 0) =
      (true, (1/1000, 1/2)) := by
    rw [pose_to_pointer, candidate_id _ _ _ _ _ _ (by norm_num) (by norm_num)]
    norm_num [emitStep_some]
  have hx : c_int_of ((1/1000 : ℝ) * SCREEN_WIDTH) = 1 := by
    rw [SCREEN_WIDTH]
    exact c_int_of_eq _ _ (by norm_num) (by norm_num) (by norm_num)
  have hy : c_int_of ((1/2 : ℝ) * SCREEN_HEIGHT) = 540 := by
    rw [SCREEN_HEIGHT]
    exact c_int_of_eq _ _ (by norm_num) (by norm_num) (by norm_num)
  refine ⟨?_, ?_, by norm_num⟩
  · rw [tick_playing_events_update ⟨⟨false, false⟩, ⟨false, false⟩, ⟨false, false⟩⟩
      ⟨idQuat, ⟨1/1000, 1/2, 0⟩⟩
      { phase := .playing, x0 := 0, x1 := 1, y0 := 0, y1 := 1, z := 0,
        run := true, sync := false, mouse := (0, 0) }
      rfl rfl rfl rfl (1/1000) (1/2) hptr, hx, hy]
  · rw [round_eq]
    have h242 : (1/1000 : ℝ) * 1920 + 1/2 = 2.42 := by norm_num
    rw [h242]
    exact Int.floor_eq_iff.mpr ⟨by norm_num, by norm_num⟩

/-- Claim C7 as amended: for every updated pointer state `(u, v)`, the
absolute-position events sent to the sink carry the pixel coordinates
obtained by truncating `u * 1920` and `v * 1080` toward zero — the floor,
as both products are nonnegative — for the configured 1920 by 1080
resolution. -/
theorem C7_scaled_emission (b : Buttons) (p : XrPosef) (s : LoopState)
    (hphase : s.phase = .playing) (u v : ℝ)
    (hupd : pose_to_pointer p s.x0 s.x1 s.y0 s.y1 s.z s.mouse = (true, (u, v))) :
    (tick b p s).2.filter isAbs =
      [Event.abs .absX ⌊u * 1920⌋, Event.abs .absY ⌊v * 1080⌋] := by
  have hr := emitStep_true_range _ _ _ hupd
  have hxx : c_int_of (u * SCREEN_WIDTH) = ⌊u * 1920⌋ := by
    rw [SCREEN_WIDTH, c_int_of, if_pos (by nlinarith [hr.1])]
  have hyy : c_int_of (v * SCREEN_HEIGHT) = ⌊v * 1080⌋ := by
    rw [SCREEN_HEIGHT, c_int_of, if_pos (by nlinarith [hr.2.2.1])]
  simp [tick, hphase, hupd, hxx, hyy, List.filter_append,
    apply_ite (List.filter isAbs), isAbs]

/-- Witness for C7: the pointer state `(1/2, 1/2)` yields the absolute
position `(960, 540)`. -/
theorem C7_witness :
    (pose_to_pointer ⟨idQuat, ⟨1/2, 1/2, 0⟩⟩ 0 1 0 1 0 (0, 0) =
      (true, (1/2, 1/2))) ∧
    (tick ⟨⟨false, false⟩, ⟨false, false⟩, ⟨false, false⟩⟩
        ⟨idQuat, ⟨1/2, 1/2, 0⟩⟩
        { phase := .playing, x0 := 0, x1 := 1, y0 := 0, y1 := 1, z := 0,
          run := true, sync := false, mouse := (0, 0) }).2.filter isAbs =
      [Event.abs .absX 960, Event.abs .absY 540] := by
  have hupd : pose_to_pointer ⟨idQuat, ⟨1/2, 1/2, 0⟩⟩ 0 1 0 1 0 (0, 0) =
      (true, (1/2, 1/2)) := by
    rw [pose_to_pointer, candidate_id _ _ _ _ _ _ (by norm_num) (by norm_num)]
    norm_num [emitStep_some]
  have h := C7_scaled_emission ⟨⟨false, false⟩, ⟨false, false⟩, ⟨false, false⟩⟩
    ⟨idQuat, ⟨1/2, 1/2, 0⟩⟩
    { phase := .playing, x0 := 0, x1 := 1, y0 := 0, y1 := 1, z := 0,
      run := true, sync := false, mouse := (0, 0) } rfl (1/2) (1/2) hupd
  have h960 : ⌊(1/2 : ℝ) * 1920⌋ = 960 :=
    Int.floor_eq_iff.mpr ⟨by norm_num, by norm_num⟩
  have h540 : ⌊(1/2 : ℝ) * 1080⌋ = 540 :=
    Int.floor_eq_iff.mpr ⟨by norm_num, by norm_num⟩
  exact ⟨hupd, by rw [h, h960, h540]⟩

/-- Claim C8: the calibration phase only moves forward.  The loop starts in
the first-corner phase; a tick either keeps the phase or advances it by
exactly one step, so the rank never decreases; the playing phase is terminal;
and the calibration geometry `x0, x1, y0, y1, z` changes only on the ticks
that advance the phase (the two corner captures) and is never modified once
the playing phase is entered. -/
theorem C8_phase_forward (b : Buttons) (p : XrPosef) (s : LoopState)
    (gx0 gx1 gy0 gy1 gz : ℝ) :
    (initState gx0 gx1 gy0 gy1 gz).phase = .recordingTopLeft ∧
    phaseRank s.phase ≤ phaseRank (tick b p s).1.phase ∧
    ((tick b p s).1.phase = s.phase ∨
      phaseRank (tick b p s).1.phase = phaseRank s.phase + 1) ∧
    (s.phase = .playing → (tick b p s).1.phase = .playing) ∧
    ((tick b p s).1.phase = s.phase →
      ((tick b p s).1.x0 = s.x0 ∧ (tick b p s).1.x1 = s.x1 ∧
       (tick b p s).1.y0 = s.y0 ∧ (tick b p s).1.y1 = s.y1 ∧
       (tick b p s).1.z = s.z)) ∧
    (s.phase = .playing →
      ((tick b p s).1.x0 = s.x0 ∧ (tick b p s).1.x1 = s.x1 ∧
       (tick b p s).1.y0 = s.y0 ∧ (tick b p s).1.y1 = s.y1 ∧
       (tick b p s).1.z = s.z)) := by
  refine ⟨rfl, ?_⟩
  cases hp : s.phase with
  | recordingTopLeft =>
    cases hfire : (b.fire.currentState && b.fire.changedSinceLastSync) <;>
      simp [tick, hp, hfire, phaseRank]
  | recordingBottomRight =>
    cases hfire : (b.fire.currentState && b.fire.changedSinceLastSync) <;>
      simp [tick, hp, hfire, phaseRank]
  | playing =>
    simp [tick, hp, phaseRank]

/-- Witness for C8: a playing tick — even with a fire press-edge — stays in
the playing phase and keeps the recorded depth. -/
theorem C8_witness :
    ((tick ⟨⟨true, true⟩, ⟨false, false⟩, ⟨false, false⟩⟩ ⟨idQuat, ⟨3, 4, 9⟩⟩
      { phase := .playing, x0 := 0, x1 := 1, y0 := 0, y1 := 1, z := 0,
        run := true, sync := false, mouse := (0, 0) }).1.phase = .playing) ∧
    ((tick ⟨⟨true, true⟩, ⟨false, false⟩, ⟨false, false⟩⟩ ⟨idQuat, ⟨3, 4, 9⟩⟩
      { phase := .playing, x0 := 0, x1 := 1, y0 := 0, y1 := 1, z := 0,
        run := true, sync := false, mouse := (0, 0) }).1.z = 0) := by
  have h := C8_phase_forward ⟨⟨true, true⟩, ⟨false, false⟩, ⟨false, false⟩⟩
    ⟨idQuat, ⟨3, 4, 9⟩⟩
    { phase := .playing, x0 := 0, x1 := 1, y0 := 0, y1 := 1, z := 0,
      run := true, sync := false, mouse := (0, 0) } 0 0 0 0 0
  exact ⟨h.2.2.2.1 rfl, (h.2.2.2.2.2 rfl).2.2.2.2⟩

/-- Claim C9: within a single playing-phase tick, if at least one button or
absolute-position event was written, exactly one `EV_SYN` barrier is written
after them (the event list ends with it); if no event was produced, no
barrier is written.  The `sync` flag is false again at the tick boundary.  In
particular a pedal press-edge with no other changes produces exactly one
secondary-key press event followed by exactly one barrier and no
absolute-position event. -/
theorem C9_sync_barrier (b : Buttons) (p : XrPosef) (s : LoopState)
    (hphase : s.phase = .playing) (hsync : s.sync = false) :
    (((tick b p s).2.filter isSyn).length =
      if (tick b p s).2.filter (fun e => !(isSyn e)) = [] then 0 else 1) ∧
    ((tick b p s).2 ≠ [] → (tick b p s).2.getLast? = some .syn) ∧
    ((tick b p s).1.sync = false) ∧
    (b.fire.changedSinceLastSync = false → b.pause.changedSinceLastSync = false →
      b.pedal.currentState = true → b.pedal.changedSinceLastSync = true →
      (pose_to_pointer p s.x0 s.x1 s.y0 s.y1 s.z s.mouse).1 = false →
      (tick b p s).2 = [Event.key .keyZ true, Event.syn]) := by
  cases hf : b.fire.changedSinceLastSync <;>
  cases hpd : b.pedal.changedSinceLastSync <;>
  cases hps : b.pause.changedSinceLastSync <;>
  cases hptr : (pose_to_pointer p s.x0 s.x1 s.y0 s.y1 s.z s.mouse).1 <;>
    simp [tick, hphase, hsync, hf, hpd, hps, hptr, isSyn]

/-- Witness for C9: a pedal press-edge while the ray is off-screen writes
exactly the secondary-key press and one barrier. -/
theorem C9_witness :
    (tick ⟨⟨false, false⟩, ⟨true, true⟩, ⟨false, false⟩⟩ ⟨idQuat, ⟨10, 0, 0⟩⟩
      { phase := .playing, x0 := 0, x1 := 1, y0 := 0, y1 := 1, z := 0,
        run := true, sync := false, mouse := (0, 0) }).2 =
      [Event.key .keyZ true, Event.syn] := by
  have hptr : (pose_to_pointer ⟨idQuat, ⟨10, 0, 0⟩⟩ 0 1 0 1 0
      ((0 : ℝ), (0 : ℝ))).1 = false := by
    rw [pose_to_pointer, candidate_id _ _ _ _ _ _ (by norm_num) (by norm_num)]
    norm_num [emitStep_some]
  exact (C9_sync_barrier ⟨⟨false, false⟩, ⟨true, true⟩, ⟨false, false⟩⟩
    ⟨idQuat, ⟨10, 0, 0⟩⟩
    { phase := .playing, x0 := 0, x1 := 1, y0 := 0, y1 := 1, z := 0,
      run := true, sync := false, mouse := (0, 0) } rfl rfl).2.2.2
    rfl rfl rfl rfl hptr

/-- Counterexample to C10 as stated: the pointer state is created holding
`(0, 0)`, which is itself a valid normalized coordinate, not a sentinel.  A
first in-range candidate of exactly `(0, 0)` compares equal to the initial
state and is NOT emitted. -/
theorem C10_counterexample :
    (initState 0 0 0 0 0).mouse = (0, 0) ∧
    candidate ⟨idQuat, ⟨0, 0, 0⟩⟩ 0 1 0 1 0 = some (0, 0) ∧
    pose_to_pointer ⟨idQuat, ⟨0, 0, 0⟩⟩ 0 1 0 1 0 (initState 0 0 0 0 0).mouse =
      (false, (0, 0)) := by
  have hc : candidate ⟨idQuat, ⟨0, 0, 0⟩⟩ 0 1 0 1 0 = some (0, 0) := by
    rw [candidate_id _ _ _ _ _ _ (by norm_num) (by norm_num)]
    norm_num
  refine ⟨rfl, hc, ?_⟩
  rw [show (initState 0 0 0 0 0).mouse = ((0 : ℝ), (0 : ℝ)) from rfl,
    pose_to_pointer, hc, emitStep_some]
  norm_num

/-- Claim C10 as amended: the pointer state is created at startup holding
`(0, 0)` — a valid coordinate, not a distinct sentinel — so the first
in-range candidate computed after calibration is emitted if and only if it
differs from `(0, 0)`; a first candidate of exactly `(0, 0)` is
suppressed. -/
theorem C10_first_candidate (gx0 gx1 gy0 gy1 gz : ℝ) (p : XrPosef)
    (x0 x1 y0 y1 depth rx ry : ℝ)
    (hc : candidate p x0 x1 y0 y1 depth = some (rx, ry))
    (hin : 0 ≤ rx ∧ rx ≤ 1 ∧ 0 ≤ ry ∧ ry ≤ 1) :
    (initState gx0 gx1 gy0 gy1 gz).mouse = (0, 0) ∧
    pose_to_pointer p x0 x1 y0 y1 depth (initState gx0 gx1 gy0 gy1 gz).mouse =
      (if (rx, ry) ≠ ((0 : ℝ), (0 : ℝ)) then (true, (rx, ry))
       else (false, (0, 0))) := by
  refine ⟨rfl, ?_⟩
  rw [show (initState gx0 gx1 gy0 gy1 gz).mouse = ((0 : ℝ), (0 : ℝ)) from rfl,
    pose_to_pointer, hc, emitStep_some,
    if_neg (by push_neg; exact ⟨hin.1, hin.2.1, hin.2.2.1, hin.2.2.2⟩)]
  rcases eq_or_ne (rx, ry) ((0 : ℝ), (0 : ℝ)) with h0 | h0
  · have hx0 : rx = 0 := congrArg Prod.fst h0
    have hy0 : ry = 0 := congrArg Prod.snd h0
    rw [if_neg (by push_neg; exact ⟨hx0, hy0⟩), if_neg (by simp [h0])]
  · have hne : rx ≠ (0 : ℝ) ∨ ry ≠ (0 : ℝ) := by
      by_contra hcon
      push_neg at hcon
      exact h0 (by rw [hcon.1, hcon.2])
    rw [if_pos (by simpa using hne), if_pos h0]

/-- Witness for C10: from the startup state, the first in-range candidate
`(1/4, 3/4)` differs from `(0, 0)` and is emitted. -/
theorem C10_witness :
    (candidate ⟨idQuat, ⟨1/4, 3/4, 0⟩⟩ 0 1 0 1 0 = some (1/4, 3/4)) ∧
    ((0 : ℝ) ≤ 1/4 ∧ (1/4 : ℝ) ≤ 1 ∧ (0 : ℝ) ≤ 3/4 ∧ (3/4 : ℝ) ≤ 1) ∧
    pose_to_pointer ⟨idQuat, ⟨1/4, 3/4, 0⟩⟩ 0 1 0 1 0
      (initState 0 0 0 0 0).mouse =
      (if ((1/4 : ℝ), (3/4 : ℝ)) ≠ ((0 : ℝ), (0 : ℝ))
       then (true, (1/4, 3/4)) else (false, (0, 0))) := by
  have hc : candidate ⟨idQuat, ⟨1/4, 3/4, 0⟩⟩ 0 1 0 1 0 = some (1/4, 3/4) := by
    rw [candidate_id _ _ _ _ _ _ (by norm_num) (by norm_num)]
    norm_num
  have hin : (0 : ℝ) ≤ 1/4 ∧ (1/4 : ℝ) ≤ 1 ∧ (0 : ℝ) ≤ 3/4 ∧ (3/4 : ℝ) ≤ 1 := by
    norm_num
  exact ⟨hc, hin, (C10_first_candidate 0 0 0 0 0 _ _ _ _ _ _ _ _ hc hin).2⟩

end LightGunXR

end
